import Mathlib

/-!
Shallow embedding of the gotlb load balancer core:
`frontend.go` (per-application backend registry) and
`providers/marathon.go` (discovery event processor).

Go slices of backend addresses become `List String`; the Go maps
`map[string]string` (labels) and `map[string]Labels` (known apps) become
association lists with lookup-first / replace-on-insert semantics; code that
panics (out-of-range indexing) returns `Option`; channel sends become elements
of an emitted command list, in send order.
-/

namespace Gotlb

/-! ## Frontend (frontend.go) -/

/-- Embeds `Frontend.findIdxOfBackend`'s loop: `idx` is the index of the head
of the remaining list, as in Go's `for idx, node := range f.backends`. -/
def findIdxGo (backend : String) : Nat → List String → Int × Bool
  | _, [] => (-1, false)
  | idx, node :: rest =>
    if node == backend then ((idx : Int), true) else findIdxGo backend (idx + 1) rest

/-- Embeds `Frontend.findIdxOfBackend`: first index of `backend` in `backends`
with a found flag, `(-1, false)` when absent. -/
def findIdxOfBackend (backends : List String) (backend : String) : Int × Bool :=
  findIdxGo backend 0 backends

/-- Embeds `Frontend.AddBackend`'s effect on `f.backends`:
`f.backends = append(f.backends, backend)`. -/
def addBackendList (backends : List String) (backend : String) : List String :=
  backends ++ [backend]

/-- Embeds `Frontend.RemoveBackend`'s effect on `f.backends` together with the
warning diagnostic: on `found`, `append(f.backends[:idx], f.backends[idx+1:]...)`
(the element at `idx` is dropped); otherwise the list is untouched and a
`[WARN]` line is logged (second component `true`). -/
def removeBackendF (backends : List String) (backend : String) : List String × Bool :=
  let r := findIdxOfBackend backends backend
  if r.2 then
    (backends.take r.1.toNat ++ backends.drop (r.1.toNat + 1), false)
  else
    (backends, true)

/-- The backend list after `Frontend.RemoveBackend`. -/
def removeBackendList (backends : List String) (backend : String) : List String :=
  (removeBackendF backends backend).1

/-- Embeds `Frontend.LenOfBackends`: `len(f.backends)`. -/
def lenOfBackends (backends : List String) : Nat :=
  backends.length

/-- A mutation call on one Frontend's backend list. -/
inductive FrontendOp where
  | add (backend : String)
  | remove (backend : String)
deriving DecidableEq

/-- Applies one `AddBackend`/`RemoveBackend` call to the backend list. -/
def applyOp (backends : List String) : FrontendOp → List String
  | .add b => addBackendList backends b
  | .remove b => removeBackendList backends b

/-- Runs a sequence of `AddBackend`/`RemoveBackend` calls on the backend list. -/
def runOps (backends : List String) : List FrontendOp → List String
  | [] => backends
  | op :: rest => runOps (applyOp backends op) rest

/-- Counts the `AddBackend` calls in a sequence. -/
def countAdds : List FrontendOp → Nat
  | [] => 0
  | .add _ :: rest => countAdds rest + 1
  | .remove _ :: rest => countAdds rest

/-- Counts, along the run, the `RemoveBackend` calls whose backend was present
(i.e. for which `findIdxOfBackend` reported `found`). -/
def countMatchedRemoves (backends : List String) : List FrontendOp → Nat
  | [] => 0
  | .add b :: rest => countMatchedRemoves (addBackendList backends b) rest
  | .remove b :: rest =>
    (if (findIdxOfBackend backends b).2 then 1 else 0) +
      countMatchedRemoves (removeBackendList backends b) rest

/-! ## Lock discipline of the Frontend methods (frontend.go)

Each method body is transcribed, line by line, into a trace of primitive
steps.  Two critical sections guarded by the same `sync.Mutex` are mutually
exclusive exactly when both of them acquire that mutex. -/

/-- A primitive step performed by a Frontend method, as written in its body:
operations on `f.lock`, accesses to `f.backends`, calls into `f.strategy`,
and logging. -/
inductive FStep where
  | lockAcquire
  | lockRelease
  | readBackends
  | writeBackends
  | strategyNext
  | strategyAdd
  | strategyRemove
  | logWarn
deriving DecidableEq

/-- Embeds `Frontend.Lookup`: its whole body is `return f.strategy.Next()`;
the method never touches `f.lock`. -/
def lookupTrace : List FStep :=
  [.strategyNext]

/-- Embeds `Frontend.AddBackend`: `f.lock.Lock()`, `defer f.lock.Unlock()`,
append to `f.backends`, `f.strategy.AddBackend(backend)`. -/
def addBackendTrace : List FStep :=
  [.lockAcquire, .writeBackends, .strategyAdd, .lockRelease]

/-- Embeds `Frontend.RemoveBackend` (branch chosen by whether the backend was
found): lock, scan `f.backends`, then either splice the list or log a warning,
then `f.strategy.RemoveBackend(backend)`, unlock. -/
def removeBackendTrace (found : Bool) : List FStep :=
  if found then
    [.lockAcquire, .readBackends, .writeBackends, .strategyRemove, .lockRelease]
  else
    [.lockAcquire, .readBackends, .logWarn, .strategyRemove, .lockRelease]

/-- Embeds `Frontend.LenOfBackends`: lock, read `len(f.backends)`, unlock. -/
def lenOfBackendsTrace : List FStep :=
  [.lockAcquire, .readBackends, .lockRelease]

/-- Whether a method's trace acquires the Frontend's `sync.Mutex`. -/
def acquiresFrontendLock (t : List FStep) : Bool :=
  t.contains .lockAcquire

/-- Two Frontend method bodies are mutually exclusive via the Frontend's lock
exactly when both run inside a critical section of that one mutex. -/
def mutuallyExclusiveViaLock (t1 t2 : List FStep) : Prop :=
  acquiresFrontendLock t1 = true ∧ acquiresFrontendLock t2 = true

/-! ## Marathon provider (providers/marathon.go) -/

/-- Go's `map[string]string` of Marathon labels, as an association list
(`type Labels map[string]string` in providers/marathon.go). -/
abbrev Labels := List (String × String)

/-- The provider's known-apps map `m.apps : map[string]Labels`, as an
association list. -/
abbrev AppsMap := List (String × Labels)

/-- Lookup in an association list, embedding a Go map read. -/
def mapLookup {α : Type} : List (String × α) → String → Option α
  | [], _ => none
  | (k2, v) :: rest, k => if k2 == k then some v else mapLookup rest k

/-- Insert/replace in an association list, embedding a Go map assignment. -/
def mapInsert {α : Type} : List (String × α) → String → α → List (String × α)
  | [], k, v => [(k, v)]
  | (k2, v2) :: rest, k, v =>
    if k2 == k then (k, v) :: rest else (k2, v2) :: mapInsert rest k v

/-- Modelled from the spec: the name of the boolean enable label
(`types.TLB_ENABLED`; the `types` package is not under src/). The claims do
not depend on the concrete string. -/
def TLB_ENABLED : String := "tlb.enabled"

/-- Modelled from the spec: the name of the integer endpoint-index label
(`types.TLB_PORTINDEX`; the `types` package is not under src/). The claims do
not depend on the concrete string. -/
def TLB_PORTINDEX : String := "tlb.portIndex"

/-- Modelled from the spec: `types.AppInfo` (`types` package not under src/),
`{ appId: string, labels: mapping<string,string> }`. -/
structure AppInfo where
  appId : String
  labels : Labels
deriving DecidableEq

/-- Modelled from the spec: `types.BackendInfo` (`types` package not under
src/), `{ appId: string, node: "host:port" string }`. -/
structure BackendInfo where
  appId : String
  node : String
deriving DecidableEq

/-- A message on one of the provider's four command channels
(`addBackend`, `removeBackend`, `appUpdate`, `dropApp`); an emitted command
list records the channel sends in program order. -/
inductive Command where
  | addBackend (b : BackendInfo)
  | removeBackend (b : BackendInfo)
  | appUpdated (a : AppInfo)
  | appDropped (a : AppInfo)
deriving DecidableEq

/-- Modelled from the spec: boolean label parsing as used by
`maps.GetBoolean` (external `golang-utils` collaborator), following Go's
`strconv.ParseBool` accepted forms. -/
def parseBoolGo (s : String) : Option Bool :=
  if s == "1" || s == "t" || s == "T" || s == "true" || s == "TRUE" || s == "True" then
    some true
  else if s == "0" || s == "f" || s == "F" || s == "false" || s == "FALSE" || s == "False" then
    some false
  else
    none

/-- Modelled from the spec: `maps.GetBoolean` (external `golang-utils`
collaborator) — the label's parsed boolean value, or the default when the key
is missing or unparsable. -/
def GetBoolean (m : Labels) (key : String) (defaultValue : Bool) : Bool :=
  match mapLookup m key with
  | some v => (parseBoolGo v).getD defaultValue
  | none => defaultValue

/-- Decimal-digit accumulator for `parseIntGo`. -/
def digitsToNat (acc : Nat) : List Char → Option Nat
  | [] => some acc
  | c :: rest => if c.isDigit then digitsToNat (acc * 10 + (c.toNat - 48)) rest else none

/-- Modelled from the spec: decimal integer parsing as used by Go's
`strconv.Atoi` (an optional sign followed by at least one digit). -/
def parseIntGo (s : String) : Option Int :=
  match s.data with
  | [] => none
  | '-' :: [] => none
  | '-' :: c :: rest => (digitsToNat 0 (c :: rest)).map fun n => -(n : Int)
  | '+' :: [] => none
  | '+' :: c :: rest => (digitsToNat 0 (c :: rest)).map fun n => (n : Int)
  | l => (digitsToNat 0 l).map fun n => (n : Int)

/-- Modelled from the spec: `maps.GetInt` (external `golang-utils`
collaborator) — the label's parsed integer value, or the default when the key
is missing or unparsable. -/
def GetInt (m : Labels) (key : String) (defaultValue : Int) : Int :=
  match mapLookup m key with
  | some v => (parseIntGo v).getD defaultValue
  | none => defaultValue

/-- One entry of Marathon's reported `IPAddresses` array. -/
structure IPAddress where
  ipAddress : String
deriving DecidableEq

/-- Go slice indexing with an `int` index: out of range (negative or past the
end) is a runtime panic, embedded as `none`. -/
def sliceGet {α : Type} (l : List α) (i : Int) : Option α :=
  if i < 0 then none else l.get? i.toNat

/-- Embeds `MarathonProvider.containsApp`: key-presence test on `m.apps`. -/
def containsApp (apps : AppsMap) (appId : String) : Bool :=
  (mapLookup apps appId).isSome

/-- Embeds `MarathonProvider.appApp`: `m.apps[appId] = labels`. -/
def appApp (apps : AppsMap) (appId : String) (labels : Labels) : AppsMap :=
  mapInsert apps appId labels

/-- The endpoint index used by `createBackendInfo`:
`maps.GetInt(m.apps[appId], types.TLB_PORTINDEX, 0)` (a missing key in a Go
map of labels reads as the empty map). -/
def portIndexOf (apps : AppsMap) (appId : String) : Int :=
  GetInt ((mapLookup apps appId).getD []) TLB_PORTINDEX 0

/-- Embeds `MarathonProvider.createBackendInfo`: selects index `portIndexOf`
of both `ipAddresses` and `ports` with no bounds check (panic = `none`) and
formats `ip:port`. -/
def createBackendInfo (apps : AppsMap) (appId : String)
    (ipAddresses : List IPAddress) (ports : List Int) : Option BackendInfo :=
  match sliceGet ipAddresses (portIndexOf apps appId),
        sliceGet ports (portIndexOf apps appId) with
  | some ip, some port => some ⟨appId, ip.ipAddress ++ ":" ++ toString port⟩
  | _, _ => none

/-- The fields of `marathon.EventStatusUpdate` read by the provider. -/
structure EventStatusUpdate where
  appID : String
  taskStatus : String
  ipAddresses : List IPAddress
  ports : List Int
deriving DecidableEq

/-- The fields of `marathon.EventAPIRequest`'s `AppDefinition` read by the
provider. -/
structure AppDefinition where
  id : String
  labels : Labels
deriving DecidableEq

/-- The `marathon.EventAPIRequest` payload as read by the provider. -/
structure EventAPIRequest where
  appDefinition : AppDefinition
deriving DecidableEq

/-- Embeds the `EventIDStatusUpdate` case of `MarathonProvider.start`'s event
loop: returns the known-apps map and the commands sent, `none` on a
`createBackendInfo` panic. -/
def handleStatusUpdate (apps : AppsMap) (u : EventStatusUpdate) :
    Option (AppsMap × List Command) :=
  let knownApp := containsApp apps u.appID
  if knownApp && u.taskStatus == "TASK_FAILED" then
    (createBackendInfo apps u.appID u.ipAddresses u.ports).map
      fun b => (apps, [Command.removeBackend b])
  else if knownApp && u.taskStatus == "TASK_RUNNING" then
    (createBackendInfo apps u.appID u.ipAddresses u.ports).map
      fun b => (apps, [Command.addBackend b])
  else
    some (apps, [])

/-- Embeds the `EventIDAPIRequest` case of `MarathonProvider.start`'s event
loop. `fetchFails` is whether `client.Application(id)` returned an error (the
fetched value itself is discarded by the code). Returns the known-apps map
and the commands sent. -/
def handleAPIRequest (apps : AppsMap) (e : EventAPIRequest) (fetchFails : Bool) :
    AppsMap × List Command :=
  if fetchFails then
    if containsApp apps e.appDefinition.id then
      (apps, [Command.appDropped ⟨e.appDefinition.id, e.appDefinition.labels⟩])
    else
      (apps, [])
  else
    (apps, [Command.appUpdated ⟨e.appDefinition.id, e.appDefinition.labels⟩])

/-- One Marathon task as read by `scanAllApps` (`task.IPAddresses`,
`task.Ports`). -/
structure MarathonTask where
  ipAddresses : List IPAddress
  ports : List Int
deriving DecidableEq

/-- One Marathon application as read by `scanAllApps` (`app.ID`,
`app.Labels`, `app.Tasks`). -/
structure MApp where
  id : String
  labels : Labels
  tasks : List MarathonTask
deriving DecidableEq

/-- Embeds the per-application body of `MarathonProvider.scanAllApps`'s loop:
if the app carries the enable label, send `appUpdate`, record the app in
`m.apps`, then send one `addBackend` per task (built against the updated
map); otherwise do nothing. `none` on a `createBackendInfo` panic. -/
def scanOneApp (apps : AppsMap) (app : MApp) : Option (AppsMap × List Command) :=
  if GetBoolean app.labels TLB_ENABLED false then
    let apps2 := appApp apps app.id app.labels
    (app.tasks.mapM fun t => createBackendInfo apps2 app.id t.ipAddresses t.ports).map
      fun bs => (apps2, Command.appUpdated ⟨app.id, app.labels⟩ :: bs.map Command.addBackend)
  else
    some (apps, [])

/-- Embeds the successful branch of `MarathonProvider.scanAllApps`: folds the
loop body over the listed applications, concatenating the sent commands. -/
def scanApps (apps : AppsMap) : List MApp → Option (AppsMap × List Command)
  | [] => some (apps, [])
  | app :: rest => do
    let (apps2, cmds) ← scanOneApp apps app
    let (apps3, cmds2) ← scanApps apps2 rest
    some (apps3, cmds ++ cmds2)

/-! ## Helper lemmas about the Frontend backend list -/

theorem findIdxGo_not_mem {b : String} {l : List String} (h : b ∉ l) (n : Nat) :
    findIdxGo b n l = (-1, false) := by
  induction l generalizing n with
  | nil => rfl
  | cons x rest ih =>
    simp only [List.mem_cons, not_or] at h
    have hx : ¬ ((x == b) = true) := by
      simp only [beq_iff_eq]
      exact fun e => h.1 e.symm
    simp [findIdxGo, hx, ih h.2]

theorem findIdxGo_first {b : String} {l1 : List String} (l2 : List String)
    (h : b ∉ l1) (n : Nat) :
    findIdxGo b n (l1 ++ b :: l2) = (((n + l1.length : Nat) : Int), true) := by
  induction l1 generalizing n with
  | nil => simp [findIdxGo]
  | cons x rest ih =>
    simp only [List.mem_cons, not_or] at h
    have hx : ¬ ((x == b) = true) := by
      simp only [beq_iff_eq]
      exact fun e => h.1 e.symm
    simp only [List.cons_append, findIdxGo, List.append_eq]
    rw [if_neg hx, ih h.2]
    simp only [List.length_cons]
    congr 2
    omega

theorem take_len_append {α : Type} (l1 l2 : List α) : (l1 ++ l2).take l1.length = l1 := by
  induction l1 with
  | nil => rfl
  | cons x rest ih => simp [List.take_succ_cons, ih]

theorem drop_len_append {α : Type} (l1 l2 : List α) : (l1 ++ l2).drop l1.length = l2 := by
  induction l1 with
  | nil => rfl
  | cons x rest ih => simp [List.drop_succ_cons, ih]

theorem removeBackendF_not_mem {b : String} {bs : List String} (h : b ∉ bs) :
    removeBackendF bs b = (bs, true) := by
  simp [removeBackendF, findIdxOfBackend, findIdxGo_not_mem h 0]

theorem removeBackendF_first {b : String} {l1 : List String} (l2 : List String)
    (h : b ∉ l1) :
    removeBackendF (l1 ++ b :: l2) b = (l1 ++ l2, false) := by
  have hfind : findIdxOfBackend (l1 ++ b :: l2) b = ((l1.length : Int), true) := by
    simpa using findIdxGo_first l2 h 0
  have htake : (l1 ++ b :: l2).take l1.length = l1 := take_len_append l1 (b :: l2)
  have hdrop : (l1 ++ b :: l2).drop (l1.length + 1) = l2 := by
    have : l1 ++ b :: l2 = (l1 ++ [b]) ++ l2 := by simp
    rw [this]
    have hlen : l1.length + 1 = (l1 ++ [b]).length := by simp
    rw [hlen, drop_len_append]
  simp [removeBackendF, hfind, Int.toNat_ofNat, htake, hdrop]

theorem first_occ_split {b : String} {bs : List String} (h : b ∈ bs) :
    ∃ l1 l2, bs = l1 ++ b :: l2 ∧ b ∉ l1 := by
  induction bs with
  | nil => cases h
  | cons x rest ih =>
    by_cases hx : x = b
    · exact ⟨[], rest, by simp [hx], by simp⟩
    · have hrest : b ∈ rest := by
        rcases List.mem_cons.mp h with h1 | h2
        · exact absurd h1.symm hx
        · exact h2
      rcases ih hrest with ⟨l1, l2, heq, hnot⟩
      exact ⟨x :: l1, l2, by simp [heq], by
        simp only [List.mem_cons, not_or]
        exact ⟨fun e => hx e.symm, hnot⟩⟩

theorem removeBackendF_length (bs : List String) (b : String) :
    (removeBackendF bs b).1.length +
      (if (findIdxOfBackend bs b).2 then 1 else 0) = bs.length := by
  by_cases h : b ∈ bs
  · rcases first_occ_split h with ⟨l1, l2, heq, hnot⟩
    subst heq
    have hfind : findIdxOfBackend (l1 ++ b :: l2) b = ((l1.length : Int), true) := by
      simpa using findIdxGo_first l2 hnot 0
    rw [removeBackendF_first l2 hnot, hfind]
    simp
    omega
  · have hfind : findIdxOfBackend bs b = (-1, false) := findIdxGo_not_mem h 0
    rw [removeBackendF_not_mem h, hfind]
    simp

theorem runOps_invariant (ops : List FrontendOp) :
    ∀ bs : List String,
      (runOps bs ops).length + countMatchedRemoves bs ops =
        bs.length + countAdds ops := by
  induction ops with
  | nil => intro bs; simp [runOps, countMatchedRemoves, countAdds]
  | cons op rest ih =>
    intro bs
    cases op with
    | add b =>
      have := ih (addBackendList bs b)
      simp only [runOps, countMatchedRemoves, countAdds, applyOp] at *
      simp only [addBackendList] at *
      simp at this ⊢
      omega
    | remove b =>
      have h1 := ih (removeBackendList bs b)
      have h2 := removeBackendF_length bs b
      simp only [runOps, countMatchedRemoves, countAdds, applyOp,
        removeBackendList] at *
      omega

/-! ## Claim C2 -/

/-- Claim C2 (counterexample): the claim says `Lookup` and
`AddBackend`/`RemoveBackend` are mutually exclusive via the Frontend's lock,
but the body of `Frontend.Lookup` (frontend.go:32-34) never acquires
`f.lock`, so it is not serialized against `AddBackend` by that lock. -/
theorem c2_lookup_not_excluded_cex :
    ¬ mutuallyExclusiveViaLock lookupTrace addBackendTrace :=
  fun h => absurd h.1 (by decide)

/-- Claim C2 (amended): `AddBackend`, `RemoveBackend` and `LenOfBackends`
each run entirely inside the Frontend's lock and are therefore pairwise
mutually exclusive; `Lookup`, however, does not acquire the Frontend's lock
at all (it delegates directly to the strategy), so mutation is not mutually
exclusive with selection via that lock. -/
theorem c2_lock_discipline_amended (f g : Bool) :
    mutuallyExclusiveViaLock addBackendTrace (removeBackendTrace f) ∧
    mutuallyExclusiveViaLock (removeBackendTrace f) (removeBackendTrace g) ∧
    mutuallyExclusiveViaLock addBackendTrace lenOfBackendsTrace ∧
    mutuallyExclusiveViaLock (removeBackendTrace f) lenOfBackendsTrace ∧
    acquiresFrontendLock lookupTrace = false := by
  cases f <;> cases g <;>
    exact ⟨⟨by decide, by decide⟩, ⟨by decide, by decide⟩, ⟨by decide, by decide⟩,
      ⟨by decide, by decide⟩, by decide⟩

/-! ## Claim C7 -/

/-- Claim C7: calling `RemoveBackend` with a backend that is not in the
Frontend's backend list leaves the list unchanged and produces (only) the
warning diagnostic; the function is total, so nothing terminates or corrupts
the Frontend. -/
theorem c7_removeBackend_absent_warn_noop (bs : List String) (b : String)
    (h : b ∉ bs) : removeBackendF bs b = (bs, true) :=
  removeBackendF_not_mem h

/-- Claim C7 (witness): removing `"b"` from the one-element list `["a"]`. -/
theorem c7_removeBackend_absent_warn_noop_witness :
    ("b" : String) ∉ ["a"] ∧ removeBackendF ["a"] "b" = (["a"], true) :=
  ⟨by decide, c7_removeBackend_absent_warn_noop ["a"] "b" (by decide)⟩

/-! ## Claim C8 -/

/-- Claim C8: after any finite sequence of `AddBackend`/`RemoveBackend` calls
on one Frontend (starting from an empty backend list), `LenOfBackends` equals
the number of adds minus the number of removes that matched a present
backend, and that difference is never negative. -/
theorem c8_len_adds_minus_matched_removes (ops : List FrontendOp) :
    ((lenOfBackends (runOps [] ops) : Int) =
      (countAdds ops : Int) - (countMatchedRemoves [] ops : Int)) ∧
    0 ≤ (countAdds ops : Int) - (countMatchedRemoves [] ops : Int) := by
  have h := runOps_invariant ops []
  simp only [lenOfBackends, List.length_nil] at *
  constructor <;> omega

/-! ## Claim C10 -/

/-- Claim C10: `AddBackend` appends without deduplicating (the count of an
already-present node grows by one), and one `RemoveBackend` for a duplicated
node removes exactly the first occurrence, leaving the later duplicates in
place. -/
theorem c10_first_occurrence_removal (l1 l2 : List String) (b : String)
    (h : b ∉ l1) :
    (addBackendList (l1 ++ b :: l2) b).count b = (l1 ++ b :: l2).count b + 1 ∧
    removeBackendF (l1 ++ b :: l2) b = (l1 ++ l2, false) := by
  constructor
  · simp [addBackendList]
    omega
  · exact removeBackendF_first l2 h

/-- Claim C10 (witness): on `["a", "b", "b"]`, adding `"b"` makes its count
three, and one remove yields `["a", "b"]`. -/
theorem c10_first_occurrence_removal_witness :
    ("b" : String) ∉ ["a"] ∧
    (addBackendList (["a"] ++ "b" :: ["b"]) "b").count "b" =
      (["a"] ++ "b" :: ["b"]).count "b" + 1 ∧
    removeBackendF (["a"] ++ "b" :: ["b"]) "b" = (["a"] ++ ["b"], false) :=
  ⟨by decide, c10_first_occurrence_removal ["a"] ["b"] "b" (by decide)⟩

/-! ## Claim C3 -/

/-- Claim C3: `createBackendInfo` selects the endpoint index given by the
app's recorded port-index label (defaulting to 0) and formats `ip:port` from
that index of the reported IP-address and port arrays; whenever that index is
out of range of either array (negative included) the construction fails,
because the index is not bounds-checked. -/
theorem c3_createBackendInfo_indexing (apps : AppsMap) (appId : String)
    (ips : List IPAddress) (ports : List Int) :
    (∀ i : Nat, portIndexOf apps appId = (i : Int) →
      ∀ hip : i < ips.length, ∀ hp : i < ports.length,
        createBackendInfo apps appId ips ports =
          some ⟨appId, (ips.get ⟨i, hip⟩).ipAddress ++ ":" ++
            toString (ports.get ⟨i, hp⟩)⟩) ∧
    ((portIndexOf apps appId < 0 ∨ (ips.length : Int) ≤ portIndexOf apps appId ∨
        (ports.length : Int) ≤ portIndexOf apps appId) →
      createBackendInfo apps appId ips ports = none) := by
  constructor
  · intro i hi hip hp
    have h1 : sliceGet ips (portIndexOf apps appId) = some (ips.get ⟨i, hip⟩) := by
      rw [hi]
      simp [sliceGet, List.get?_eq_get hip]
    have h2 : sliceGet ports (portIndexOf apps appId) = some (ports.get ⟨i, hp⟩) := by
      rw [hi]
      simp [sliceGet, List.get?_eq_get hp]
    simp [createBackendInfo, h1, h2]
  · intro h
    rcases h with h | h | h
    · simp [createBackendInfo, sliceGet, h]
    · have h1 : sliceGet ips (portIndexOf apps appId) = none := by
        simp only [sliceGet]
        split
        · rfl
        · rename_i hneg
          apply List.get?_eq_none.mpr
          omega
      cases h2 : sliceGet ports (portIndexOf apps appId) <;>
        simp [createBackendInfo, h1, h2]
    · have h2 : sliceGet ports (portIndexOf apps appId) = none := by
        simp only [sliceGet]
        split
        · rfl
        · rename_i hneg
          apply List.get?_eq_none.mpr
          omega
      cases h1 : sliceGet ips (portIndexOf apps appId) <;>
        simp [createBackendInfo, h1, h2]

/-- Claim C3 (witness): with a recorded port-index label of `"0"`, the
backend is `10.0.0.1:9000`; with an empty port array the same index is out
of range and the construction fails. -/
theorem c3_createBackendInfo_indexing_witness :
    createBackendInfo [("app1", [("tlb.portIndex", "0")])] "app1"
      [⟨"10.0.0.1"⟩] [9000] = some ⟨"app1", "10.0.0.1:9000"⟩ ∧
    createBackendInfo [("app1", [("tlb.portIndex", "0")])] "app1"
      [⟨"10.0.0.1"⟩] [] = none :=
  ⟨(c3_createBackendInfo_indexing [("app1", [("tlb.portIndex", "0")])] "app1"
      [⟨"10.0.0.1"⟩] [9000]).1 0 (by decide) (by decide) (by decide),
   (c3_createBackendInfo_indexing [("app1", [("tlb.portIndex", "0")])] "app1"
      [⟨"10.0.0.1"⟩] []).2 (Or.inr (Or.inr (by decide)))⟩

/-! ## Claim C4 -/

/-- Claim C4: for a status-update event, if the app is known and the status
is `TASK_FAILED` the processor sends exactly one `RemoveBackend` with the
node built from the event's reported addresses; if known and `TASK_RUNNING`,
exactly one `AddBackend`; if the app is unknown, nothing at all. -/
theorem c4_handleStatusUpdate_cases (apps : AppsMap) (u : EventStatusUpdate) :
    (containsApp apps u.appID = true → u.taskStatus = "TASK_FAILED" →
      ∀ b, createBackendInfo apps u.appID u.ipAddresses u.ports = some b →
        handleStatusUpdate apps u = some (apps, [Command.removeBackend b])) ∧
    (containsApp apps u.appID = true → u.taskStatus = "TASK_RUNNING" →
      ∀ b, createBackendInfo apps u.appID u.ipAddresses u.ports = some b →
        handleStatusUpdate apps u = some (apps, [Command.addBackend b])) ∧
    (containsApp apps u.appID = false →
      handleStatusUpdate apps u = some (apps, [])) := by
  refine ⟨?_, ?_, ?_⟩
  · intro hc hs b hb
    simp [handleStatusUpdate, hc, hs, hb]
  · intro hc hs b hb
    simp [handleStatusUpdate, hc, hs, hb]
  · intro hc
    simp [handleStatusUpdate, hc]

/-- Claim C4 (witness): a `TASK_FAILED` update for the known app `"a"` sends
one `RemoveBackend` with node `10.0.0.1:9000`; the same update for an
unknown app sends nothing. -/
theorem c4_handleStatusUpdate_cases_witness :
    handleStatusUpdate [("a", [])] ⟨"a", "TASK_FAILED", [⟨"10.0.0.1"⟩], [9000]⟩ =
      some ([("a", [])], [Command.removeBackend ⟨"a", "10.0.0.1:9000"⟩]) ∧
    handleStatusUpdate [] ⟨"a", "TASK_FAILED", [⟨"10.0.0.1"⟩], [9000]⟩ =
      some ([], []) :=
  ⟨(c4_handleStatusUpdate_cases [("a", [])]
      ⟨"a", "TASK_FAILED", [⟨"10.0.0.1"⟩], [9000]⟩).1 (by decide) rfl
      ⟨"a", "10.0.0.1:9000"⟩ (by decide),
   (c4_handleStatusUpdate_cases []
      ⟨"a", "TASK_FAILED", [⟨"10.0.0.1"⟩], [9000]⟩).2.2 (by decide)⟩

/-! ## Claim C9 -/

/-- Claim C9: a status-update event whose task status is neither exactly
`TASK_FAILED` nor exactly `TASK_RUNNING` sends no command at all, whether or
not the application is known. -/
theorem c9_other_status_emits_nothing (apps : AppsMap) (u : EventStatusUpdate)
    (h1 : u.taskStatus ≠ "TASK_FAILED") (h2 : u.taskStatus ≠ "TASK_RUNNING") :
    handleStatusUpdate apps u = some (apps, []) := by
  have e1 : (u.taskStatus == "TASK_FAILED") = false := by
    simp only [beq_eq_false_iff_ne, ne_eq]
    exact h1
  have e2 : (u.taskStatus == "TASK_RUNNING") = false := by
    simp only [beq_eq_false_iff_ne, ne_eq]
    exact h2
  simp [handleStatusUpdate, e1, e2]

/-- Claim C9 (witness): a `TASK_KILLED` update for an app that is in the
known-apps map sends nothing. -/
theorem c9_other_status_emits_nothing_witness :
    containsApp [("a", [])] "a" = true ∧
    handleStatusUpdate [("a", [])] ⟨"a", "TASK_KILLED", [⟨"10.0.0.1"⟩], [9000]⟩ =
      some ([("a", [])], []) :=
  ⟨by decide,
   c9_other_status_emits_nothing [("a", [])]
     ⟨"a", "TASK_KILLED", [⟨"10.0.0.1"⟩], [9000]⟩ (by decide) (by decide)⟩

/-! ## Claim C1 -/

/-- Claim C1 (counterexample): the claim says a failed re-fetch for a known
app removes the id from the known-apps map and makes a second identical
event emit nothing; in the code (marathon.go:85-99) the `dropApp` branch
never deletes from `m.apps`, so after the first event the app is still
known and the second identical event sends `AppDropped` again. -/
theorem c1_drop_not_idempotent_cex :
    ¬ (containsApp (handleAPIRequest [("app1", [("k", "v")])]
          ⟨⟨"app1", [("k", "v")]⟩⟩ true).1 "app1" = false ∧
       (handleAPIRequest (handleAPIRequest [("app1", [("k", "v")])]
          ⟨⟨"app1", [("k", "v")]⟩⟩ true).1 ⟨⟨"app1", [("k", "v")]⟩⟩ true).2 = []) := by
  decide

/-- Claim C1 (amended): for an API-request event whose re-fetch fails, with
the application id in the known-apps map, the processor sends exactly one
`AppDropped` but leaves the known-apps map unchanged; a second identical
event therefore sends the same `AppDropped` again — the drop is not
idempotent. -/
theorem c1_apiRequest_drop_amended (apps : AppsMap) (e : EventAPIRequest)
    (h : containsApp apps e.appDefinition.id = true) :
    handleAPIRequest apps e true =
      (apps, [Command.appDropped ⟨e.appDefinition.id, e.appDefinition.labels⟩]) ∧
    handleAPIRequest (handleAPIRequest apps e true).1 e true =
      (apps, [Command.appDropped ⟨e.appDefinition.id, e.appDefinition.labels⟩]) := by
  constructor <;> simp [handleAPIRequest, h]

/-- Claim C1 (witness): both the first and the second identical failed-fetch
event for the known app `"app1"` send `AppDropped`. -/
theorem c1_apiRequest_drop_amended_witness :
    handleAPIRequest [("app1", [("k", "v")])] ⟨⟨"app1", [("k", "v")]⟩⟩ true =
      ([("app1", [("k", "v")])],
        [Command.appDropped ⟨"app1", [("k", "v")]⟩]) ∧
    handleAPIRequest (handleAPIRequest [("app1", [("k", "v")])]
        ⟨⟨"app1", [("k", "v")]⟩⟩ true).1 ⟨⟨"app1", [("k", "v")]⟩⟩ true =
      ([("app1", [("k", "v")])],
        [Command.appDropped ⟨"app1", [("k", "v")]⟩]) :=
  c1_apiRequest_drop_amended [("app1", [("k", "v")])]
    ⟨⟨"app1", [("k", "v")]⟩⟩ (by decide)

/-! ## Claim C6 -/

/-- Claim C6 (counterexample): the claim says a successful re-fetch inserts
or updates the known-apps entry; in the code (marathon.go:100-107) the
`appUpdate` branch never writes to `m.apps`, so after the event a previously
unknown app is still absent from the known-apps map. -/
theorem c6_no_map_insert_cex :
    ¬ containsApp (handleAPIRequest [] ⟨⟨"app1", [("k", "v")]⟩⟩ false).1 "app1" = true := by
  decide

/-- Claim C6 (amended): for an API-request event whose re-fetch succeeds,
the processor sends exactly one `AppUpdated` with the event's application id
and labels, and leaves the known-apps map unchanged (no update or insert). -/
theorem c6_apiRequest_update_amended (apps : AppsMap) (e : EventAPIRequest) :
    handleAPIRequest apps e false =
      (apps, [Command.appUpdated ⟨e.appDefinition.id, e.appDefinition.labels⟩]) := by
  simp [handleAPIRequest]

/-! ## Claim C5 -/

/-- Claim C5: during the initial scan, an application carrying the enable
label yields one `AppUpdated`, is recorded in the known-apps map, and then
yields one `AddBackend` per task (built with the label-selected endpoint
index against the updated map); an application without the enable label
yields no commands and no known-apps entry. -/
theorem c5_scan_enabled_apps (apps : AppsMap) (app : MApp) :
    (GetBoolean app.labels TLB_ENABLED false = false →
      scanApps apps [app] = some (apps, [])) ∧
    (GetBoolean app.labels TLB_ENABLED false = true →
      ∀ bs, (app.tasks.mapM fun t =>
          createBackendInfo (appApp apps app.id app.labels) app.id
            t.ipAddresses t.ports) = some bs →
        scanApps apps [app] = some (appApp apps app.id app.labels,
          Command.appUpdated ⟨app.id, app.labels⟩ :: bs.map Command.addBackend)) := by
  constructor
  · intro h
    simp [scanApps, scanOneApp, h]
  · intro h bs hbs
    have hone : scanOneApp apps app = some (appApp apps app.id app.labels,
        Command.appUpdated ⟨app.id, app.labels⟩ :: bs.map Command.addBackend) := by
      unfold scanOneApp
      rw [if_pos h]
      simp only [hbs, Option.map_some']
    simp [scanApps, hone]

/-- Claim C5 (witness): the spec's discovery example — a scan over one
enabled app with one task sends exactly one `AppUpdated` followed by exactly
one `AddBackend` with node `10.0.0.1:9000`, and records the app. -/
theorem c5_scan_enabled_apps_witness :
    GetBoolean [("tlb.enabled", "true"), ("tlb.portIndex", "0")] TLB_ENABLED false = true ∧
    scanApps [] [⟨"app1", [("tlb.enabled", "true"), ("tlb.portIndex", "0")],
        [⟨[⟨"10.0.0.1"⟩], [9000]⟩]⟩] =
      some ([("app1", [("tlb.enabled", "true"), ("tlb.portIndex", "0")])],
        [Command.appUpdated ⟨"app1", [("tlb.enabled", "true"), ("tlb.portIndex", "0")]⟩,
         Command.addBackend ⟨"app1", "10.0.0.1:9000"⟩]) :=
  ⟨by decide,
   (c5_scan_enabled_apps []
      ⟨"app1", [("tlb.enabled", "true"), ("tlb.portIndex", "0")],
        [⟨[⟨"10.0.0.1"⟩], [9000]⟩]⟩).2 (by decide)
      [⟨"app1", "10.0.0.1:9000"⟩] (by decide)⟩

end Gotlb
